import Mathlib

/-!
Verification of the SCARA simulator kinematics core (ROBT 1270 lab).

The two source variants (`src/main.cpp` and the unnamed colored-console
variant) share the constants `L1 = 350`, `L2 = 250`, the joint limits
`150°`/`170°`, `scaraFK` and `scaraIK`.  Doubles are modelled as real
numbers; the source's constant `PI = 3.14159265358979323846` (the decimal
expansion of pi to 20 places) is modelled as `Real.pi`; `atan2(y, x)` from
`math.h` is modelled as the complex argument of `x + i*y`; `acos` is
`Real.arccos` (the reach guards keep its argument inside `[-1, 1]`, where
the two agree).  C out-parameters (`double*`) are modelled by passing the
caller's current values into the function and returning the values the
pointers hold after the call, so that a claim about "returns without
writing" is statable.
-/

namespace Scara

/-- Constant `L1` from the sources (`#define L1 350.0`), in mm. -/
def L1 : ℝ := 350

/-- Constant `L2` from the sources (`#define L2 250.0`), in mm. -/
def L2 : ℝ := 250

/-- Constant `MAX_ABS_THETA1_DEG` (`150.0`). -/
def MAX_ABS_THETA1_DEG : ℝ := 150

/-- Constant `MAX_ABS_THETA2_DEG` (`170.0`). -/
def MAX_ABS_THETA2_DEG : ℝ := 170

/-- Constant `PI` from the sources: the literal `3.14159265358979323846`
is the decimal expansion of pi, modelled as the real number pi. -/
noncomputable def PI : ℝ := Real.pi

/-- Constant `LEFT_ARM_SOLUTION` (`0`); the `int arm` parameter of `scaraIK`
is compared against it. -/
def LEFT_ARM_SOLUTION : ℤ := 0

/-- Constant `RIGHT_ARM_SOLUTION` (`1`). -/
def RIGHT_ARM_SOLUTION : ℤ := 1

/-- `atan2(y, x)` from `math.h`: the angle of the point `(x, y)`,
in `(-pi, pi]`, modelled as the complex argument. -/
noncomputable def atan2 (y x : ℝ) : ℝ := Complex.arg ⟨x, y⟩

/-- Result of a call to `scaraFK`: the returned `int` code together with
the values held by `*_x` and `*_y` after the call. -/
structure FKOut where
  code : ℤ
  x : ℝ
  y : ℝ

/-- Result of a call to `scaraIK`: the returned `int` code together with
the values held by `*_j1` and `*_j2` after the call. -/
structure IKOut where
  code : ℤ
  j1 : ℝ
  j2 : ℝ

/-- `scaraFK` (identical in both sources, `src/main.cpp:98-108`).
`x0`/`y0` are the values the caller's variables hold before the call;
on an early (error) return they are untouched.

    if (abs(_j1) > MAX_ABS_THETA1_DEG) return -1;
    if (abs(_j2) > MAX_ABS_THETA2_DEG) return -2;
    _j1 *= PI/180.0;  _j2 *= PI/180.0;
    *_x = L1*cos(_j1)+L2*cos(_j1+_j2);
    *_y = L1*sin(_j1)+L2*sin(_j1+_j2);
    return 0;  -/
noncomputable def scaraFKrun (j1 j2 x0 y0 : ℝ) : FKOut :=
  if |j1| > MAX_ABS_THETA1_DEG then ⟨-1, x0, y0⟩
  else if |j2| > MAX_ABS_THETA2_DEG then ⟨-2, x0, y0⟩
  else
    ⟨0, L1 * Real.cos (j1 * (PI / 180)) + L2 * Real.cos (j1 * (PI / 180) + j2 * (PI / 180)),
        L1 * Real.sin (j1 * (PI / 180)) + L2 * Real.sin (j1 * (PI / 180) + j2 * (PI / 180))⟩

/-- `const double L = sqrt(_x*_x + _y*_y);` (`src/main.cpp:131`). -/
noncomputable def ikL (x y : ℝ) : ℝ := Real.sqrt (x * x + y * y)

/-- `const double Min = sqrt(((L1*L1) + (L2*L2)) - (2 * L1 * L2 * cos(0.174532925)));`
(`src/main.cpp:132`); `0.174532925` is ten degrees in radians. -/
noncomputable def ikMin : ℝ :=
  Real.sqrt ((L1 * L1 + L2 * L2) - 2 * L1 * L2 * Real.cos 0.174532925)

/-- `const double beta = atan2(_y,_x);` (`src/main.cpp:138`). -/
noncomputable def ikBeta (x y : ℝ) : ℝ := atan2 y x

/-- `const double alpha = acos(((L2*L2) - (L*L) - (L1*L1)) / (-2*L*L1));`
(`src/main.cpp:139`). -/
noncomputable def ikAlpha (x y : ℝ) : ℝ :=
  Real.arccos ((L2 * L2 - ikL x y * ikL x y - L1 * L1) / (-2 * ikL x y * L1))

/-- Raw joint-1 angle (radians) of the `src/main.cpp` variant:
`double sign = (arm == LEFT_ARM_SOLUTION) ? -1.0 : 1.0; *_j1 = beta + (sign * alpha);`
(`src/main.cpp:142-143`). -/
noncomputable def ikJ1radMain (x y : ℝ) (arm : ℤ) : ℝ :=
  ikBeta x y + (if arm = LEFT_ARM_SOLUTION then (-1 : ℝ) else 1) * ikAlpha x y

/-- Raw joint-1 angle (radians) of the unnamed variant:
`*_j1 = beta + (arm  == RIGHT_ARM_SOLUTION ? alpha : -alpha);`
(`src/unnamed/part_000:254`). -/
noncomputable def ikJ1radPart (x y : ℝ) (arm : ℤ) : ℝ :=
  ikBeta x y + (if arm = RIGHT_ARM_SOLUTION then ikAlpha x y else -ikAlpha x y)

/-- `*_j2 = atan2(_y - (L1 * sin(*_j1)), _x - (L1 * cos(*_j1))) - *_j1;`
(`src/main.cpp:146`, identical in both variants), as a function of the
already-stored raw joint-1 angle. -/
noncomputable def ikJ2rad (x y j1 : ℝ) : ℝ :=
  atan2 (y - L1 * Real.sin j1) (x - L1 * Real.cos j1) - j1

/-- The pair of single-shot wraparound conditionals applied to each joint
angle in degrees (`src/main.cpp:152-155`), for a joint with limit `lim`:

    if (*v < -lim) *v += 360;
    if (*v >  lim) *v -= 360;  -/
noncomputable def normOnce (lim v : ℝ) : ℝ :=
  if (if v < -lim then v + 360 else v) > lim
  then (if v < -lim then v + 360 else v) - 360
  else (if v < -lim then v + 360 else v)

/-- Joint-1 angle in degrees before normalization (`*_j1 *= 180/PI;`,
`src/main.cpp:149`), main variant. -/
noncomputable def ikJ1degMain (x y : ℝ) (arm : ℤ) : ℝ :=
  ikJ1radMain x y arm * (180 / PI)

/-- Joint-2 angle in degrees before normalization, main variant. -/
noncomputable def ikJ2degMain (x y : ℝ) (arm : ℤ) : ℝ :=
  ikJ2rad x y (ikJ1radMain x y arm) * (180 / PI)

/-- Joint-1 angle after the `±360` wraparound, main variant. -/
noncomputable def ikJ1nMain (x y : ℝ) (arm : ℤ) : ℝ :=
  normOnce MAX_ABS_THETA1_DEG (ikJ1degMain x y arm)

/-- Joint-2 angle after the `±360` wraparound, main variant. -/
noncomputable def ikJ2nMain (x y : ℝ) (arm : ℤ) : ℝ :=
  normOnce MAX_ABS_THETA2_DEG (ikJ2degMain x y arm)

/-- `scaraIK` of `src/main.cpp:129-161`.  `j10`/`j20` are the values the
caller's variables hold before the call (the reach-failure returns leave
them untouched; once the angle computation runs, `*_j1`/`*_j2` hold the
normalized angles even when the final joint-limit checks return `-1`):

    if ( L > L1 + L2 ) return -1;
    if ( L < Min ) return -2;
    ... compute and store angles, convert to degrees, wrap once ...
    if (fabs(*_j1) > MAX_ABS_THETA1_DEG) return -1;
    if (fabs(*_j2) > MAX_ABS_THETA2_DEG) return -1;
    return 0;  -/
noncomputable def scaraIKrunMain (x y : ℝ) (arm : ℤ) (j10 j20 : ℝ) : IKOut :=
  if ikL x y > L1 + L2 then ⟨-1, j10, j20⟩
  else if ikL x y < ikMin then ⟨-2, j10, j20⟩
  else if |ikJ1nMain x y arm| > MAX_ABS_THETA1_DEG then ⟨-1, ikJ1nMain x y arm, ikJ2nMain x y arm⟩
  else if |ikJ2nMain x y arm| > MAX_ABS_THETA2_DEG then ⟨-1, ikJ1nMain x y arm, ikJ2nMain x y arm⟩
  else ⟨0, ikJ1nMain x y arm, ikJ2nMain x y arm⟩

/-- Joint-1 angle in degrees before normalization, unnamed variant. -/
noncomputable def ikJ1degPart (x y : ℝ) (arm : ℤ) : ℝ :=
  ikJ1radPart x y arm * (180 / PI)

/-- Joint-2 angle in degrees before normalization, unnamed variant. -/
noncomputable def ikJ2degPart (x y : ℝ) (arm : ℤ) : ℝ :=
  ikJ2rad x y (ikJ1radPart x y arm) * (180 / PI)

/-- Joint-1 angle after the `±360` wraparound, unnamed variant. -/
noncomputable def ikJ1nPart (x y : ℝ) (arm : ℤ) : ℝ :=
  normOnce MAX_ABS_THETA1_DEG (ikJ1degPart x y arm)

/-- Joint-2 angle after the `±360` wraparound, unnamed variant. -/
noncomputable def ikJ2nPart (x y : ℝ) (arm : ℤ) : ℝ :=
  normOnce MAX_ABS_THETA2_DEG (ikJ2degPart x y arm)

/-- `scaraIK` of `src/unnamed/part_000:242-270`; textually identical to
the `src/main.cpp` variant except for the joint-1 elbow-sign expression. -/
noncomputable def scaraIKrunPart (x y : ℝ) (arm : ℤ) (j10 j20 : ℝ) : IKOut :=
  if ikL x y > L1 + L2 then ⟨-1, j10, j20⟩
  else if ikL x y < ikMin then ⟨-2, j10, j20⟩
  else if |ikJ1nPart x y arm| > MAX_ABS_THETA1_DEG then ⟨-1, ikJ1nPart x y arm, ikJ2nPart x y arm⟩
  else if |ikJ2nPart x y arm| > MAX_ABS_THETA2_DEG then ⟨-1, ikJ1nPart x y arm, ikJ2nPart x y arm⟩
  else ⟨0, ikJ1nPart x y arm, ikJ2nPart x y arm⟩

/-- Outcome of the configuration-selection step of `moveScaraIK`
(`src/unnamed/part_000:301-358`): both `scaraIK` calls fail, exactly one
succeeds, or both succeed and both candidate poses are disclosed. -/
inductive SelOutcome where
  | unreachable : SelOutcome
  | onlyLeft : ℝ → ℝ → SelOutcome
  | onlyRight : ℝ → ℝ → SelOutcome
  | bothValid : ℝ → ℝ → ℝ → ℝ → SelOutcome

/-- The operator's L/R answer at the `Select arm pose (L/R)` prompt. -/
inductive ArmChoice where
  | left : ArmChoice
  | right : ArmChoice

/-- The configuration selector of `moveScaraIK` in `src/unnamed/part_000`:

    error_left  = scaraIK(X, Y, &J1_left,  &J2_left,  LEFT_ARM_SOLUTION);
    error_right = scaraIK(X, Y, &J1_right, &J2_right, RIGHT_ARM_SOLUTION);
    if (error_left && error_right)  { ...report unreachable... }
    if (!error_left && !error_right) { ...display both, prompt L/R... }
    else { ...use the single valid configuration... }

The `J1_left` &c. variables are initialized to `0`, hence the `0 0`
initial out-parameter values. -/
noncomputable def selectConfiguration (x y : ℝ) : SelOutcome :=
  if (scaraIKrunPart x y LEFT_ARM_SOLUTION 0 0).code ≠ 0
      ∧ (scaraIKrunPart x y RIGHT_ARM_SOLUTION 0 0).code ≠ 0 then
    SelOutcome.unreachable
  else if (scaraIKrunPart x y LEFT_ARM_SOLUTION 0 0).code = 0
      ∧ (scaraIKrunPart x y RIGHT_ARM_SOLUTION 0 0).code = 0 then
    SelOutcome.bothValid (scaraIKrunPart x y LEFT_ARM_SOLUTION 0 0).j1
      (scaraIKrunPart x y LEFT_ARM_SOLUTION 0 0).j2
      (scaraIKrunPart x y RIGHT_ARM_SOLUTION 0 0).j1
      (scaraIKrunPart x y RIGHT_ARM_SOLUTION 0 0).j2
  else if (scaraIKrunPart x y LEFT_ARM_SOLUTION 0 0).code = 0 then
    SelOutcome.onlyLeft (scaraIKrunPart x y LEFT_ARM_SOLUTION 0 0).j1
      (scaraIKrunPart x y LEFT_ARM_SOLUTION 0 0).j2
  else
    SelOutcome.onlyRight (scaraIKrunPart x y RIGHT_ARM_SOLUTION 0 0).j1
      (scaraIKrunPart x y RIGHT_ARM_SOLUTION 0 0).j2

/-- How `moveScaraIK` commits the final `(J1, J2)`: in the `bothValid`
case the operator's L/R answer picks the corresponding candidate
(`src/unnamed/part_000:331-343`); with a single valid configuration that
one is used regardless of any answer (`:345-357`); when unreachable no
pose is committed. -/
def commitChoice : SelOutcome → ArmChoice → Option (ℤ × ℝ × ℝ)
  | SelOutcome.unreachable, _ => none
  | SelOutcome.bothValid a b _ _, ArmChoice.left => some (LEFT_ARM_SOLUTION, a, b)
  | SelOutcome.bothValid _ _ c d, ArmChoice.right => some (RIGHT_ARM_SOLUTION, c, d)
  | SelOutcome.onlyLeft a b, _ => some (LEFT_ARM_SOLUTION, a, b)
  | SelOutcome.onlyRight c d, _ => some (RIGHT_ARM_SOLUTION, c, d)

/-- The two fractional digits of a `%.2lf` rendering: tens and units of
the centi-part. -/
def digit2 (r : ℕ) : String := ⟨[Nat.digitChar (r / 10), Nat.digitChar (r % 10)]⟩

/-- Rendering of a double with `%.2lf`, modelled in ideal real semantics:
round the value to the nearest hundredth and print sign, integer part,
a point and exactly two fractional digits. -/
noncomputable def fmt2 (v : ℝ) : String :=
  (if round (v * 100) < 0 then "-" else "")
    ++ toString ((round (v * 100)).natAbs / 100)
    ++ "." ++ digit2 ((round (v * 100)).natAbs % 100)

/-- The move-command encoder shared by both variants
(`sprintf(&commandString[0], "ROTATE_JOINT ANG1 %.2lf ANG2 %.2lf\n", J1, J2);`,
`src/main.cpp:270` and `src/unnamed/part_000:376`). -/
noncomputable def encodeMove (j1 j2 : ℝ) : String :=
  "ROTATE_JOINT ANG1 " ++ fmt2 j1 ++ " ANG2 " ++ fmt2 j2 ++ "\n"

/-- A string that ends with a decimal point followed by exactly two
digit characters. -/
def twoDecimal (s : String) : Prop :=
  ∃ p : String, ∃ a b : Char,
    s = p ++ "." ++ ⟨[a, b]⟩ ∧ a.isDigit = true ∧ b.isDigit = true

/-! ### Helper lemmas -/

lemma ikMin_nonneg_arg : (0:ℝ) ≤ (L1 * L1 + L2 * L2) - 2 * L1 * L2 * Real.cos 0.174532925 := by
  have h := Real.cos_le_one (0.174532925 : ℝ)
  unfold L1 L2
  nlinarith

lemma ikMin_lb : (100:ℝ) ≤ ikMin := by
  have h := Real.cos_le_one (0.174532925 : ℝ)
  have h10 : ((100:ℝ)^2) ≤ (L1 * L1 + L2 * L2) - 2 * L1 * L2 * Real.cos 0.174532925 := by
    unfold L1 L2; nlinarith
  calc (100:ℝ) = Real.sqrt (100^2) := (Real.sqrt_sq (by norm_num)).symm
    _ ≤ ikMin := Real.sqrt_le_sqrt h10

lemma ikMin_ub : ikMin ≤ 113 := by
  have h := Real.one_sub_sq_div_two_lt_cos (x := 0.174532925) (by norm_num)
  have h' : (L1 * L1 + L2 * L2) - 2 * L1 * L2 * Real.cos 0.174532925 ≤ (113:ℝ)^2 := by
    unfold L1 L2; nlinarith
  calc ikMin ≤ Real.sqrt ((113:ℝ)^2) := Real.sqrt_le_sqrt h'
    _ = 113 := Real.sqrt_sq (by norm_num)

lemma ikMin_pos : (0:ℝ) < ikMin := lt_of_lt_of_le (by norm_num) ikMin_lb

lemma ikL_nonneg (x y : ℝ) : 0 ≤ ikL x y := Real.sqrt_nonneg _

lemma ikL_sq (x y : ℝ) : ikL x y * ikL x y = x * x + y * y :=
  Real.mul_self_sqrt (by nlinarith [sq_nonneg x, sq_nonneg y])

/-- On the reach-passing path, `scaraIK` (main variant) reduces to the
joint-limit checks over the normalized angles. -/
lemma scaraIKrunMain_pass {x y : ℝ} (arm : ℤ) (j10 j20 : ℝ)
    (h1 : ¬ ikL x y > L1 + L2) (h2 : ¬ ikL x y < ikMin) :
    scaraIKrunMain x y arm j10 j20 =
      if |ikJ1nMain x y arm| > MAX_ABS_THETA1_DEG then
        ⟨-1, ikJ1nMain x y arm, ikJ2nMain x y arm⟩
      else if |ikJ2nMain x y arm| > MAX_ABS_THETA2_DEG then
        ⟨-1, ikJ1nMain x y arm, ikJ2nMain x y arm⟩
      else ⟨0, ikJ1nMain x y arm, ikJ2nMain x y arm⟩ := by
  unfold scaraIKrunMain
  rw [if_neg h1, if_neg h2]

lemma scaraIKrunMain_pass_j1 {x y : ℝ} (arm : ℤ) (j10 j20 : ℝ)
    (h1 : ¬ ikL x y > L1 + L2) (h2 : ¬ ikL x y < ikMin) :
    (scaraIKrunMain x y arm j10 j20).j1 = ikJ1nMain x y arm := by
  rw [scaraIKrunMain_pass arm j10 j20 h1 h2]
  split_ifs <;> rfl

lemma scaraIKrunMain_pass_j2 {x y : ℝ} (arm : ℤ) (j10 j20 : ℝ)
    (h1 : ¬ ikL x y > L1 + L2) (h2 : ¬ ikL x y < ikMin) :
    (scaraIKrunMain x y arm j10 j20).j2 = ikJ2nMain x y arm := by
  rw [scaraIKrunMain_pass arm j10 j20 h1 h2]
  split_ifs <;> rfl

lemma scaraIKrunMain_pass_code {x y : ℝ} (arm : ℤ) (j10 j20 : ℝ)
    (h1 : ¬ ikL x y > L1 + L2) (h2 : ¬ ikL x y < ikMin) :
    (scaraIKrunMain x y arm j10 j20).code =
      if |ikJ1nMain x y arm| > MAX_ABS_THETA1_DEG ∨ |ikJ2nMain x y arm| > MAX_ABS_THETA2_DEG
      then -1 else 0 := by
  rw [scaraIKrunMain_pass arm j10 j20 h1 h2]
  by_cases ha : |ikJ1nMain x y arm| > MAX_ABS_THETA1_DEG
  · rw [if_pos ha, if_pos (Or.inl ha)]
  · rw [if_neg ha]
    by_cases hb : |ikJ2nMain x y arm| > MAX_ABS_THETA2_DEG
    · rw [if_pos hb, if_pos (Or.inr hb)]
    · rw [if_neg hb, if_neg (by tauto)]

lemma scaraIKrunMain_far {x y : ℝ} (arm : ℤ) (j10 j20 : ℝ)
    (h : ikL x y > L1 + L2) :
    scaraIKrunMain x y arm j10 j20 = ⟨-1, j10, j20⟩ := by
  unfold scaraIKrunMain
  rw [if_pos h]

lemma scaraIKrunMain_close {x y : ℝ} (arm : ℤ) (j10 j20 : ℝ)
    (h1 : ¬ ikL x y > L1 + L2) (h2 : ikL x y < ikMin) :
    scaraIKrunMain x y arm j10 j20 = ⟨-2, j10, j20⟩ := by
  unfold scaraIKrunMain
  rw [if_neg h1, if_pos h2]

/-- The argument of a point on the nonnegative real axis is zero. -/
lemma arg_mk_of_nonneg {x : ℝ} (hx : 0 ≤ x) : Complex.arg ⟨x, 0⟩ = 0 := by
  have h : (⟨x, 0⟩ : ℂ) = (x : ℂ) := by
    apply Complex.ext <;> simp
  rw [h, Complex.arg_ofReal_of_nonneg hx]

/-- The argument of a point on the negative real axis is pi. -/
lemma arg_mk_of_neg {x : ℝ} (hx : x < 0) : Complex.arg ⟨x, 0⟩ = Real.pi := by
  have h : (⟨x, 0⟩ : ℂ) = (x : ℂ) := by
    apply Complex.ext <;> simp
  rw [h, Complex.arg_ofReal_of_neg hx]

lemma normOnce_zero (lim : ℝ) (hlim : 0 < lim) : normOnce lim 0 = 0 := by
  unfold normOnce
  rw [if_neg (show ¬ (0:ℝ) < -lim by linarith)]
  rw [if_neg (show ¬ (0:ℝ) > lim by linarith)]

/-! ### Geometry of the inverse solution -/

lemma cos_atan2_mul {Y X r : ℝ} (hr : 0 < r) (h : X * X + Y * Y = r * r) :
    Real.cos (atan2 Y X) = X / r := by
  have hzne : (⟨X, Y⟩ : ℂ) ≠ 0 := by
    intro h0
    have hX : X = 0 := by simpa using congrArg Complex.re h0
    have hY : Y = 0 := by simpa using congrArg Complex.im h0
    rw [hX, hY] at h
    nlinarith
  unfold atan2
  rw [Complex.cos_arg hzne, Complex.abs_apply, Complex.normSq_mk]
  show X / Real.sqrt (X * X + Y * Y) = X / r
  rw [h, Real.sqrt_mul_self hr.le]

lemma sin_atan2_mul {Y X r : ℝ} (hr : 0 < r) (h : X * X + Y * Y = r * r) :
    Real.sin (atan2 Y X) = Y / r := by
  unfold atan2
  rw [Complex.sin_arg, Complex.abs_apply, Complex.normSq_mk]
  show Y / Real.sqrt (X * X + Y * Y) = Y / r
  rw [h, Real.sqrt_mul_self hr.le]

/-- On the annulus `100 ≤ L ≤ 600` the `acos` argument of `scaraIK` equals
`(L² + 60000)/(700·L)` and lies in `[-1, 1]`, so the elbow angle satisfies
the law of cosines. -/
lemma cos_ikAlpha {x y : ℝ} (h100 : 100 ≤ ikL x y) (h600 : ikL x y ≤ 600) :
    Real.cos (ikAlpha x y) = (ikL x y * ikL x y + 60000) / (700 * ikL x y) := by
  have hL0 : (0:ℝ) < ikL x y := lt_of_lt_of_le (by norm_num) h100
  have hquot : (L2 * L2 - ikL x y * ikL x y - L1 * L1) / (-2 * ikL x y * L1)
      = (ikL x y * ikL x y + 60000) / (700 * ikL x y) := by
    unfold L1 L2
    rw [div_eq_div_iff (by nlinarith) (by nlinarith)]
    ring
  have hden : (0:ℝ) < 700 * ikL x y := by nlinarith
  have hle1 : (ikL x y * ikL x y + 60000) / (700 * ikL x y) ≤ 1 := by
    rw [div_le_one hden]
    nlinarith [mul_nonneg (by linarith : (0:ℝ) ≤ ikL x y - 100)
      (by linarith : (0:ℝ) ≤ 600 - ikL x y)]
  have hge : (-1:ℝ) ≤ (ikL x y * ikL x y + 60000) / (700 * ikL x y) := by
    have : (0:ℝ) ≤ (ikL x y * ikL x y + 60000) / (700 * ikL x y) :=
      div_nonneg (by nlinarith) hden.le
    linarith
  unfold ikAlpha
  rw [hquot]
  exact Real.cos_arccos hge hle1

/-- Core round-trip identity: for any elbow sign `s = ±1` and any target in
the annulus `100 ≤ L ≤ 600`, the forward map applied to the raw (radian)
angles built by `scaraIK` reproduces the target exactly. -/
lemma roundtrip_core {x y : ℝ} (s : ℝ) (hs : s = 1 ∨ s = -1)
    (h100 : 100 ≤ ikL x y) (h600 : ikL x y ≤ 600) :
    L1 * Real.cos (ikBeta x y + s * ikAlpha x y)
      + L2 * Real.cos (ikBeta x y + s * ikAlpha x y
          + ikJ2rad x y (ikBeta x y + s * ikAlpha x y)) = x
    ∧ L1 * Real.sin (ikBeta x y + s * ikAlpha x y)
      + L2 * Real.sin (ikBeta x y + s * ikAlpha x y
          + ikJ2rad x y (ikBeta x y + s * ikAlpha x y)) = y := by
  have hL0 : (0:ℝ) < ikL x y := lt_of_lt_of_le (by norm_num) h100
  have hLL : x * x + y * y = ikL x y * ikL x y := (ikL_sq x y).symm
  have hcb : Real.cos (ikBeta x y) = x / ikL x y := by
    unfold ikBeta
    exact cos_atan2_mul hL0 hLL
  have hsb : Real.sin (ikBeta x y) = y / ikL x y := by
    unfold ikBeta
    exact sin_atan2_mul hL0 hLL
  have hx_eq : x = Real.cos (ikBeta x y) * ikL x y := by
    rw [hcb]
    field_simp
  have hy_eq : y = Real.sin (ikBeta x y) * ikL x y := by
    rw [hsb]
    field_simp
  have hca : Real.cos (s * ikAlpha x y)
      = (ikL x y * ikL x y + 60000) / (700 * ikL x y) := by
    rcases hs with h | h
    · rw [h, one_mul]
      exact cos_ikAlpha h100 h600
    · rw [h, neg_one_mul, Real.cos_neg]
      exact cos_ikAlpha h100 h600
  have hca_mul : Real.cos (s * ikAlpha x y) * (700 * ikL x y)
      = ikL x y * ikL x y + 60000 := by
    rw [hca]
    field_simp
  have hstep1 : x * Real.cos (ikBeta x y + s * ikAlpha x y)
      + y * Real.sin (ikBeta x y + s * ikAlpha x y)
      = ikL x y * Real.cos (s * ikAlpha x y) := by
    rw [Real.cos_add, Real.sin_add]
    have hpb := Real.sin_sq_add_cos_sq (ikBeta x y)
    linear_combination
      (Real.cos (ikBeta x y) * Real.cos (s * ikAlpha x y)
        - Real.sin (ikBeta x y) * Real.sin (s * ikAlpha x y)) * hx_eq
      + (Real.sin (ikBeta x y) * Real.cos (s * ikAlpha x y)
        + Real.cos (ikBeta x y) * Real.sin (s * ikAlpha x y)) * hy_eq
      + (ikL x y * Real.cos (s * ikAlpha x y)) * hpb
  have hp1 := Real.sin_sq_add_cos_sq (ikBeta x y + s * ikAlpha x y)
  have hdist : (x - L1 * Real.cos (ikBeta x y + s * ikAlpha x y))
        * (x - L1 * Real.cos (ikBeta x y + s * ikAlpha x y))
      + (y - L1 * Real.sin (ikBeta x y + s * ikAlpha x y))
        * (y - L1 * Real.sin (ikBeta x y + s * ikAlpha x y)) = 62500 := by
    unfold L1
    linear_combination hLL + (-700 : ℝ) * hstep1 + (122500 : ℝ) * hp1
      + (-1 : ℝ) * hca_mul
  have habs : Real.sqrt
      ((x - L1 * Real.cos (ikBeta x y + s * ikAlpha x y))
        * (x - L1 * Real.cos (ikBeta x y + s * ikAlpha x y))
      + (y - L1 * Real.sin (ikBeta x y + s * ikAlpha x y))
        * (y - L1 * Real.sin (ikBeta x y + s * ikAlpha x y)))
      = 250 := by
    rw [hdist, show (62500:ℝ) = 250 * 250 by norm_num, Real.sqrt_mul_self (by norm_num)]
  have hdist250 : (x - L1 * Real.cos (ikBeta x y + s * ikAlpha x y))
        * (x - L1 * Real.cos (ikBeta x y + s * ikAlpha x y))
      + (y - L1 * Real.sin (ikBeta x y + s * ikAlpha x y))
        * (y - L1 * Real.sin (ikBeta x y + s * ikAlpha x y)) = (250:ℝ) * 250 := by
    rw [hdist]
    norm_num
  have hcos2 : Real.cos (ikBeta x y + s * ikAlpha x y
      + ikJ2rad x y (ikBeta x y + s * ikAlpha x y))
      = (x - L1 * Real.cos (ikBeta x y + s * ikAlpha x y)) / 250 := by
    unfold ikJ2rad
    rw [show ikBeta x y + s * ikAlpha x y
        + (atan2 (y - L1 * Real.sin (ikBeta x y + s * ikAlpha x y))
            (x - L1 * Real.cos (ikBeta x y + s * ikAlpha x y))
          - (ikBeta x y + s * ikAlpha x y))
        = atan2 (y - L1 * Real.sin (ikBeta x y + s * ikAlpha x y))
            (x - L1 * Real.cos (ikBeta x y + s * ikAlpha x y)) by ring]
    exact cos_atan2_mul (by norm_num) hdist250
  have hsin2 : Real.sin (ikBeta x y + s * ikAlpha x y
      + ikJ2rad x y (ikBeta x y + s * ikAlpha x y))
      = (y - L1 * Real.sin (ikBeta x y + s * ikAlpha x y)) / 250 := by
    unfold ikJ2rad
    rw [show ikBeta x y + s * ikAlpha x y
        + (atan2 (y - L1 * Real.sin (ikBeta x y + s * ikAlpha x y))
            (x - L1 * Real.cos (ikBeta x y + s * ikAlpha x y))
          - (ikBeta x y + s * ikAlpha x y))
        = atan2 (y - L1 * Real.sin (ikBeta x y + s * ikAlpha x y))
            (x - L1 * Real.cos (ikBeta x y + s * ikAlpha x y)) by ring]
    exact sin_atan2_mul (by norm_num) hdist250
  constructor
  · rw [hcos2]
    unfold L2
    ring
  · rw [hsin2]
    unfold L2
    ring

/-- The single-shot wraparound shifts by an integer multiple of 360. -/
lemma normOnce_eq_add (lim v : ℝ) : ∃ k : ℤ, normOnce lim v = v + k * 360 := by
  unfold normOnce
  split_ifs
  · exact ⟨0, by push_cast; ring⟩
  · exact ⟨1, by push_cast; ring⟩
  · exact ⟨-1, by push_cast; ring⟩
  · exact ⟨0, by push_cast; ring⟩

/-! ### Evaluation at the boundary point (600, 0) -/

lemma ikL_at600 : ikL 600 0 = 600 := by
  unfold ikL
  rw [show ((600:ℝ) * 600 + 0 * 0) = 600^2 by norm_num, Real.sqrt_sq (by norm_num)]

lemma ikBeta_at600 : ikBeta 600 0 = 0 := by
  unfold ikBeta atan2
  exact arg_mk_of_nonneg (by norm_num)

lemma ikAlpha_at600 : ikAlpha 600 0 = 0 := by
  unfold ikAlpha
  rw [ikL_at600]
  rw [show ((L2 * L2 - 600 * 600 - L1 * L1) / (-2 * 600 * L1) : ℝ) = 1 by
    unfold L1 L2; norm_num]
  exact Real.arccos_one

lemma ikJ1radMain_at600 (arm : ℤ) : ikJ1radMain 600 0 arm = 0 := by
  unfold ikJ1radMain
  rw [ikBeta_at600, ikAlpha_at600]
  split <;> ring

lemma ikJ1radPart_at600 (arm : ℤ) : ikJ1radPart 600 0 arm = 0 := by
  unfold ikJ1radPart
  rw [ikBeta_at600, ikAlpha_at600]
  split <;> ring

lemma ikJ2rad_at600 : ikJ2rad 600 0 0 = 0 := by
  unfold ikJ2rad atan2
  rw [Real.sin_zero, Real.cos_zero]
  rw [show ((0:ℝ) - L1 * 0) = 0 by ring, show ((600:ℝ) - L1 * 1) = 250 by unfold L1; ring]
  rw [arg_mk_of_nonneg (by norm_num)]
  ring

lemma scaraIKrunMain_at600 (arm : ℤ) (j10 j20 : ℝ) :
    scaraIKrunMain 600 0 arm j10 j20 = ⟨0, 0, 0⟩ := by
  have hL : ikL 600 0 = 600 := ikL_at600
  have h1 : ¬ ikL 600 0 > L1 + L2 := by rw [hL]; unfold L1 L2; norm_num
  have h2 : ¬ ikL 600 0 < ikMin := by
    rw [hL]; exact not_lt.mpr (le_trans ikMin_ub (by norm_num))
  have hj1 : ikJ1nMain 600 0 arm = 0 := by
    unfold ikJ1nMain ikJ1degMain
    rw [ikJ1radMain_at600, zero_mul]
    exact normOnce_zero _ (by unfold MAX_ABS_THETA1_DEG; norm_num)
  have hj2 : ikJ2nMain 600 0 arm = 0 := by
    unfold ikJ2nMain ikJ2degMain
    rw [ikJ1radMain_at600, ikJ2rad_at600, zero_mul]
    exact normOnce_zero _ (by unfold MAX_ABS_THETA2_DEG; norm_num)
  rw [scaraIKrunMain_pass arm j10 j20 h1 h2, hj1, hj2]
  rw [if_neg (by unfold MAX_ABS_THETA1_DEG; norm_num),
      if_neg (by unfold MAX_ABS_THETA2_DEG; norm_num)]

lemma scaraIKrunPart_at600 (arm : ℤ) (j10 j20 : ℝ) :
    scaraIKrunPart 600 0 arm j10 j20 = ⟨0, 0, 0⟩ := by
  have hL : ikL 600 0 = 600 := ikL_at600
  have h1 : ¬ ikL 600 0 > L1 + L2 := by rw [hL]; unfold L1 L2; norm_num
  have h2 : ¬ ikL 600 0 < ikMin := by
    rw [hL]; exact not_lt.mpr (le_trans ikMin_ub (by norm_num))
  have hj1 : ikJ1nPart 600 0 arm = 0 := by
    unfold ikJ1nPart ikJ1degPart
    rw [ikJ1radPart_at600, zero_mul]
    exact normOnce_zero _ (by unfold MAX_ABS_THETA1_DEG; norm_num)
  have hj2 : ikJ2nPart 600 0 arm = 0 := by
    unfold ikJ2nPart ikJ2degPart
    rw [ikJ1radPart_at600, ikJ2rad_at600, zero_mul]
    exact normOnce_zero _ (by unfold MAX_ABS_THETA2_DEG; norm_num)
  unfold scaraIKrunPart
  rw [if_neg h1, if_neg h2, hj1, hj2]
  rw [if_neg (by unfold MAX_ABS_THETA1_DEG; norm_num),
      if_neg (by unfold MAX_ABS_THETA2_DEG; norm_num)]

lemma normOnce_id {lim v : ℝ} (h1 : -lim ≤ v) (h2 : v ≤ lim) : normOnce lim v = v := by
  unfold normOnce
  rw [if_neg (not_lt.mpr h1)]
  rw [if_neg (not_lt.mpr h2)]

lemma scaraIKrunPart_pass_j1 {x y : ℝ} (arm : ℤ) (j10 j20 : ℝ)
    (h1 : ¬ ikL x y > L1 + L2) (h2 : ¬ ikL x y < ikMin) :
    (scaraIKrunPart x y arm j10 j20).j1 = ikJ1nPart x y arm := by
  unfold scaraIKrunPart
  rw [if_neg h1, if_neg h2]
  split_ifs <;> rfl

lemma ikL_x_axis (x : ℝ) : ikL x 0 = |x| := by
  unfold ikL
  rw [show (x * x + 0 * 0 : ℝ) = |x| * |x| by rw [abs_mul_abs_self]; ring,
    Real.sqrt_mul_self (abs_nonneg x)]

lemma sum_L1_L2 : L1 + L2 = (600:ℝ) := by
  unfold L1 L2
  norm_num

/-! ### Evaluation at (300, 0): the elbow angle is arccos(5/7) -/

lemma ikL_300 : ikL 300 0 = 300 := by
  rw [ikL_x_axis, abs_of_pos (by norm_num : (0:ℝ) < 300)]

lemma ikBeta_300 : ikBeta 300 0 = 0 := by
  unfold ikBeta atan2
  exact arg_mk_of_nonneg (by norm_num)

lemma ikAlpha_300 : ikAlpha 300 0 = Real.arccos (5 / 7) := by
  unfold ikAlpha
  rw [ikL_300]
  rw [show (L2 * L2 - (300:ℝ) * 300 - L1 * L1) / (-2 * 300 * L1) = 5 / 7 by
    unfold L1 L2; norm_num]

lemma deg_factor_pos : (0:ℝ) < 180 / PI := by
  unfold PI
  positivity

lemma arccos57_deg_pos : 0 < Real.arccos (5 / 7) * (180 / PI) :=
  mul_pos (Real.arccos_pos.mpr (by norm_num)) deg_factor_pos

lemma arccos57_deg_le : Real.arccos (5 / 7) * (180 / PI) ≤ 90 := by
  have hle : Real.arccos (5 / 7) ≤ Real.pi / 2 :=
    Real.arccos_le_pi_div_two.mpr (by norm_num)
  have h := mul_le_mul_of_nonneg_right hle deg_factor_pos.le
  rw [show Real.pi / 2 * (180 / PI) = 90 by
    unfold PI; field_simp; ring] at h
  exact h

lemma ikJ1nMain_300 : ikJ1nMain 300 0 (-1) = Real.arccos (5 / 7) * (180 / PI) := by
  have hrad : ikJ1radMain 300 0 (-1) = Real.arccos (5 / 7) := by
    unfold ikJ1radMain LEFT_ARM_SOLUTION
    rw [ikBeta_300, ikAlpha_300, if_neg (by decide : ¬ (-1:ℤ) = 0)]
    ring
  unfold ikJ1nMain ikJ1degMain
  rw [hrad]
  exact normOnce_id
    (by unfold MAX_ABS_THETA1_DEG; linarith [arccos57_deg_pos])
    (by unfold MAX_ABS_THETA1_DEG; linarith [arccos57_deg_le])

lemma ikJ1nPart_300 : ikJ1nPart 300 0 (-1) = -(Real.arccos (5 / 7) * (180 / PI)) := by
  have hrad : ikJ1radPart 300 0 (-1) = -Real.arccos (5 / 7) := by
    unfold ikJ1radPart RIGHT_ARM_SOLUTION
    rw [ikBeta_300, ikAlpha_300, if_neg (by decide : ¬ (-1:ℤ) = 1)]
    ring
  unfold ikJ1nPart ikJ1degPart
  rw [hrad]
  rw [show -Real.arccos (5 / 7) * (180 / PI) = -(Real.arccos (5 / 7) * (180 / PI)) by ring]
  exact normOnce_id
    (by unfold MAX_ABS_THETA1_DEG; linarith [arccos57_deg_le])
    (by unfold MAX_ABS_THETA1_DEG; linarith [arccos57_deg_pos])

lemma reach_ok_300_far : ¬ ikL 300 0 > L1 + L2 := by
  rw [ikL_300, sum_L1_L2]
  norm_num

lemma reach_ok_300_close : ¬ ikL 300 0 < ikMin := by
  rw [ikL_300]
  exact not_lt.mpr (le_trans ikMin_ub (by norm_num))

/-! ### Evaluation at (-500, 0): the normalized joint-1 angle breaks the limit -/

lemma ikL_neg500 : ikL (-500) 0 = 500 := by
  rw [ikL_x_axis]
  rw [abs_of_neg (by norm_num : (-500:ℝ) < 0)]
  norm_num

lemma ikBeta_neg500 : ikBeta (-500) 0 = Real.pi := by
  unfold ikBeta atan2
  exact arg_mk_of_neg (by norm_num)

lemma ikAlpha_neg500 : ikAlpha (-500) 0 = Real.arccos (31 / 35) := by
  unfold ikAlpha
  rw [ikL_neg500]
  rw [show (L2 * L2 - (500:ℝ) * 500 - L1 * L1) / (-2 * 500 * L1) = 31 / 35 by
    unfold L1 L2; norm_num]

lemma arccos3135_deg_pos : 0 < Real.arccos (31 / 35) * (180 / PI) :=
  mul_pos (Real.arccos_pos.mpr (by norm_num)) deg_factor_pos

lemma arccos3135_lt : Real.arccos (31 / 35) < Real.pi / 6 := by
  have hs3 : Real.sqrt 3 < 62 / 35 := by
    rw [show (62 / 35 : ℝ) = Real.sqrt ((62 / 35) ^ 2) from
      (Real.sqrt_sq (by norm_num)).symm]
    exact Real.sqrt_lt_sqrt (by norm_num) (by norm_num)
  have h6 : Real.arccos (Real.sqrt 3 / 2) = Real.pi / 6 := by
    rw [← Real.cos_pi_div_six]
    exact Real.arccos_cos (by positivity) (by linarith [Real.pi_pos])
  have hmem1 : Real.sqrt 3 / 2 ∈ Set.Icc (-1 : ℝ) 1 := by
    constructor
    · have := Real.sqrt_nonneg (3:ℝ)
      linarith
    · linarith
  have hmem2 : (31 / 35 : ℝ) ∈ Set.Icc (-1 : ℝ) 1 := by
    constructor <;> norm_num
  have hlt : Real.sqrt 3 / 2 < 31 / 35 := by linarith
  have := Real.strictAntiOn_arccos hmem1 hmem2 hlt
  rw [h6] at this
  exact this

lemma arccos3135_deg_lt : Real.arccos (31 / 35) * (180 / PI) < 30 := by
  have h := mul_lt_mul_of_pos_right arccos3135_lt deg_factor_pos
  rw [show Real.pi / 6 * (180 / PI) = 30 by unfold PI; field_simp; ring] at h
  exact h

lemma ikJ1nMain_neg500 :
    ikJ1nMain (-500) 0 1 = Real.arccos (31 / 35) * (180 / PI) - 180 := by
  have hrad : ikJ1radMain (-500) 0 1 = Real.pi + Real.arccos (31 / 35) := by
    unfold ikJ1radMain LEFT_ARM_SOLUTION
    rw [ikBeta_neg500, ikAlpha_neg500, if_neg (by decide : ¬ (1:ℤ) = 0)]
    ring
  have hdeg : ikJ1degMain (-500) 0 1 = 180 + Real.arccos (31 / 35) * (180 / PI) := by
    unfold ikJ1degMain
    rw [hrad]
    unfold PI
    field_simp
    ring
  unfold ikJ1nMain
  rw [hdeg]
  unfold normOnce MAX_ABS_THETA1_DEG
  rw [if_neg (by linarith [arccos3135_deg_pos] :
    ¬ 180 + Real.arccos (31 / 35) * (180 / PI) < -150)]
  rw [if_pos (by linarith [arccos3135_deg_pos] :
    180 + Real.arccos (31 / 35) * (180 / PI) > 150)]
  ring

lemma ikJ1nMain_neg500_breaks : |ikJ1nMain (-500) 0 1| > MAX_ABS_THETA1_DEG := by
  rw [ikJ1nMain_neg500]
  rw [abs_of_neg (by linarith [arccos3135_deg_lt] :
    Real.arccos (31 / 35) * (180 / PI) - 180 < 0)]
  unfold MAX_ABS_THETA1_DEG
  linarith [arccos3135_deg_lt]

lemma reach_ok_neg500_far : ¬ ikL (-500) 0 > L1 + L2 := by
  rw [ikL_neg500, sum_L1_L2]
  norm_num

lemma reach_ok_neg500_close : ¬ ikL (-500) 0 < ikMin := by
  rw [ikL_neg500]
  exact not_lt.mpr (le_trans ikMin_ub (by norm_num))

/-! ### Claim theorems -/

/-- C1: whenever `scaraIK` (main variant) succeeds on a target `(x, y)` —
which entails the target lies in the reach annulus and the normalized
joint angles are within the joint limits — `scaraFK` applied to the
returned joint pose succeeds and reproduces `(x, y)` within `1e-6` mm
(in the real-number model, exactly). -/
theorem fk_inverts_ik (x y : ℝ) (arm : ℤ) (j10 j20 j1 j2 : ℝ)
    (h : scaraIKrunMain x y arm j10 j20 = ⟨0, j1, j2⟩) (x0 y0 : ℝ) :
    ∃ x' y', scaraFKrun j1 j2 x0 y0 = ⟨0, x', y'⟩
      ∧ |x' - x| ≤ 1 / 1000000 ∧ |y' - y| ≤ 1 / 1000000 := by
  have h1 : ¬ ikL x y > L1 + L2 := by
    intro hgt
    rw [scaraIKrunMain_far arm j10 j20 hgt] at h
    have hcontra : (-1 : ℤ) = 0 := congrArg IKOut.code h
    exact absurd hcontra (by decide)
  have h2 : ¬ ikL x y < ikMin := by
    intro hlt
    rw [scaraIKrunMain_close arm j10 j20 h1 hlt] at h
    have hcontra : (-2 : ℤ) = 0 := congrArg IKOut.code h
    exact absurd hcontra (by decide)
  have hcode : (0:ℤ) = (if |ikJ1nMain x y arm| > MAX_ABS_THETA1_DEG
      ∨ |ikJ2nMain x y arm| > MAX_ABS_THETA2_DEG then -1 else 0) := by
    have hc := scaraIKrunMain_pass_code arm j10 j20 h1 h2
    rw [h] at hc
    exact hc
  have hlim : ¬(|ikJ1nMain x y arm| > MAX_ABS_THETA1_DEG
      ∨ |ikJ2nMain x y arm| > MAX_ABS_THETA2_DEG) := by
    intro hP
    rw [if_pos hP] at hcode
    exact absurd hcode (by decide)
  have hl1 : ¬ |ikJ1nMain x y arm| > MAX_ABS_THETA1_DEG := fun hh => hlim (Or.inl hh)
  have hl2 : ¬ |ikJ2nMain x y arm| > MAX_ABS_THETA2_DEG := fun hh => hlim (Or.inr hh)
  have hj1 : j1 = ikJ1nMain x y arm := by
    have hp := scaraIKrunMain_pass_j1 arm j10 j20 h1 h2
    rw [h] at hp
    exact hp
  have hj2 : j2 = ikJ2nMain x y arm := by
    have hp := scaraIKrunMain_pass_j2 arm j10 j20 h1 h2
    rw [h] at hp
    exact hp
  have hL100 : 100 ≤ ikL x y := le_trans ikMin_lb (not_lt.mp h2)
  have hL600 : ikL x y ≤ 600 := by
    have hle := not_lt.mp h1
    rw [show L1 + L2 = (600:ℝ) by unfold L1 L2; norm_num] at hle
    exact hle
  obtain ⟨k1, hk1⟩ := normOnce_eq_add MAX_ABS_THETA1_DEG (ikJ1degMain x y arm)
  obtain ⟨k2, hk2⟩ := normOnce_eq_add MAX_ABS_THETA2_DEG (ikJ2degMain x y arm)
  have hn1 : ikJ1nMain x y arm = ikJ1degMain x y arm + (k1 : ℝ) * 360 := hk1
  have hn2 : ikJ2nMain x y arm = ikJ2degMain x y arm + (k2 : ℝ) * 360 := hk2
  have hd1 : ikJ1degMain x y arm = ikJ1radMain x y arm * (180 / PI) := rfl
  have hd2 : ikJ2degMain x y arm = ikJ2rad x y (ikJ1radMain x y arm) * (180 / PI) := rfl
  have hpine : (Real.pi : ℝ) ≠ 0 := Real.pi_ne_zero
  have harg1 : j1 * (PI / 180) = ikJ1radMain x y arm + (k1 : ℝ) * (2 * Real.pi) := by
    rw [hj1, hn1, hd1]
    unfold PI
    field_simp
    ring
  have harg2 : j2 * (PI / 180)
      = ikJ2rad x y (ikJ1radMain x y arm) + (k2 : ℝ) * (2 * Real.pi) := by
    rw [hj2, hn2, hd2]
    unfold PI
    field_simp
    ring
  have hargsum : j1 * (PI / 180) + j2 * (PI / 180)
      = ikJ1radMain x y arm + ikJ2rad x y (ikJ1radMain x y arm)
        + ((k1 + k2 : ℤ) : ℝ) * (2 * Real.pi) := by
    rw [harg1, harg2]
    push_cast
    ring
  have hc1 : Real.cos (j1 * (PI / 180)) = Real.cos (ikJ1radMain x y arm) := by
    rw [harg1]
    exact Real.cos_add_int_mul_two_pi _ k1
  have hs1 : Real.sin (j1 * (PI / 180)) = Real.sin (ikJ1radMain x y arm) := by
    rw [harg1]
    exact Real.sin_add_int_mul_two_pi _ k1
  have hcsum : Real.cos (j1 * (PI / 180) + j2 * (PI / 180))
      = Real.cos (ikJ1radMain x y arm + ikJ2rad x y (ikJ1radMain x y arm)) := by
    rw [hargsum]
    exact Real.cos_add_int_mul_two_pi _ (k1 + k2)
  have hssum : Real.sin (j1 * (PI / 180) + j2 * (PI / 180))
      = Real.sin (ikJ1radMain x y arm + ikJ2rad x y (ikJ1radMain x y arm)) := by
    rw [hargsum]
    exact Real.sin_add_int_mul_two_pi _ (k1 + k2)
  have hs : (if arm = LEFT_ARM_SOLUTION then (-1:ℝ) else 1) = 1
      ∨ (if arm = LEFT_ARM_SOLUTION then (-1:ℝ) else 1) = -1 := by
    by_cases harm : arm = LEFT_ARM_SOLUTION
    · right
      rw [if_pos harm]
    · left
      rw [if_neg harm]
  have hrad : ikJ1radMain x y arm
      = ikBeta x y + (if arm = LEFT_ARM_SOLUTION then (-1:ℝ) else 1) * ikAlpha x y := rfl
  have hcore := roundtrip_core (if arm = LEFT_ARM_SOLUTION then (-1:ℝ) else 1) hs hL100 hL600
  rw [← hrad] at hcore
  have hfk1 : ¬ |j1| > MAX_ABS_THETA1_DEG := by
    rw [hj1]
    exact hl1
  have hfk2 : ¬ |j2| > MAX_ABS_THETA2_DEG := by
    rw [hj2]
    exact hl2
  refine ⟨L1 * Real.cos (j1 * (PI / 180)) + L2 * Real.cos (j1 * (PI / 180) + j2 * (PI / 180)),
      L1 * Real.sin (j1 * (PI / 180)) + L2 * Real.sin (j1 * (PI / 180) + j2 * (PI / 180)),
      ?_, ?_, ?_⟩
  · unfold scaraFKrun
    rw [if_neg hfk1, if_neg hfk2]
  · rw [hc1, hcsum, hcore.1]
    norm_num
  · rw [hs1, hssum, hcore.2]
    norm_num

/-- C1 witness: at the concrete target `(600, 0)` with the LEFT
configuration, `scaraIK` succeeds with the pose `(0, 0)` and `scaraFK`
maps that pose back to `(600, 0)` within `1e-6`. -/
theorem fk_inverts_ik_witness :
    ∃ x' y', scaraFKrun 0 0 0 0 = ⟨0, x', y'⟩
      ∧ |x' - 600| ≤ 1 / 1000000 ∧ |y' - 0| ≤ 1 / 1000000 :=
  fk_inverts_ik 600 0 0 0 0 0 0 (scaraIKrunMain_at600 0 0 0) 0 0

/-- C2 counterexample: at the exact boundary point `(600, 0)` (distance
`L = 600 = L1 + L2`) `scaraIK` does not fail with the ReachTooFar code
`-1`: the guard `L > L1 + L2` is strict, so the call succeeds (code `0`)
and returns the joint pose `(0, 0)`. -/
theorem reach_boundary_cex : scaraIKrunMain 600 0 0 0 0 = ⟨0, 0, 0⟩ :=
  scaraIKrunMain_at600 0 0 0

/-- C2 (amended): the maximum-reach boundary is inclusive — at `(600, 0)`
`scaraIK` succeeds with the pose `(0, 0)` for every arm argument — and
`scaraIK` fails with the ReachTooFar code `-1` (leaving the output
parameters untouched) exactly on the strict side, whenever `L > L1 + L2`. -/
theorem reach_too_far_amended (x y : ℝ) (arm : ℤ) (j10 j20 : ℝ) :
    scaraIKrunMain 600 0 arm j10 j20 = ⟨0, 0, 0⟩
    ∧ (ikL x y > L1 + L2 → scaraIKrunMain x y arm j10 j20 = ⟨-1, j10, j20⟩) :=
  ⟨scaraIKrunMain_at600 arm j10 j20, fun h => scaraIKrunMain_far arm j10 j20 h⟩

/-- C2 witness: the boundary call succeeds and the target `(601, 0)`,
one millimetre past maximum reach, fails with code `-1`. -/
theorem reach_too_far_amended_witness :
    scaraIKrunMain 600 0 1 2 3 = ⟨0, 0, 0⟩
    ∧ scaraIKrunMain 601 0 1 2 3 = ⟨-1, 2, 3⟩ := by
  have h := reach_too_far_amended 601 0 1 2 3
  refine ⟨h.1, h.2 ?_⟩
  rw [ikL_x_axis, sum_L1_L2, show |(601:ℝ)| = 601 from abs_of_pos (by norm_num)]
  norm_num

/-- C3: `scaraIK` fails with the ReachTooClose code `-2` exactly when the
target distance is below the minimum reach computed by the law of cosines
with the fixed `0.174532925` rad (ten degree) tolerance,
`sqrt(L1² + L2² - 2·L1·L2·cos 0.174532925)`; and whenever both reach
checks pass the solver proceeds to compute and store the joint angles. -/
theorem reach_too_close_iff (x y : ℝ) (arm : ℤ) (j10 j20 : ℝ) :
    ((scaraIKrunMain x y arm j10 j20).code = -2
      ↔ ikL x y < Real.sqrt ((L1 * L1 + L2 * L2) - 2 * L1 * L2 * Real.cos 0.174532925))
    ∧ (¬ ikL x y > L1 + L2 → ¬ ikL x y < ikMin →
        (scaraIKrunMain x y arm j10 j20).j1 = ikJ1nMain x y arm
        ∧ (scaraIKrunMain x y arm j10 j20).j2 = ikJ2nMain x y arm) := by
  constructor
  · show (scaraIKrunMain x y arm j10 j20).code = -2 ↔ ikL x y < ikMin
    constructor
    · intro hc
      by_cases hfar : ikL x y > L1 + L2
      · rw [scaraIKrunMain_far arm j10 j20 hfar] at hc
        have hcontra : (-1 : ℤ) = -2 := hc
        exact absurd hcontra (by decide)
      · by_cases hclose : ikL x y < ikMin
        · exact hclose
        · exfalso
          rw [scaraIKrunMain_pass_code arm j10 j20 hfar hclose] at hc
          split_ifs at hc
          all_goals exact absurd hc (by decide)
    · intro hlt
      have hsmall : ikL x y < 600 := lt_of_lt_of_le hlt (le_trans ikMin_ub (by norm_num))
      have hfar : ¬ ikL x y > L1 + L2 := by
        rw [sum_L1_L2]
        exact not_lt.mpr hsmall.le
      rw [scaraIKrunMain_close arm j10 j20 hfar hlt]
  · intro hfar hclose
    exact ⟨scaraIKrunMain_pass_j1 arm j10 j20 hfar hclose,
      scaraIKrunMain_pass_j2 arm j10 j20 hfar hclose⟩

/-- C3 witness: at `(300, 0)` — distance 300, above the minimum reach —
the reach checks pass and the solver writes the computed angles. -/
theorem reach_too_close_iff_witness :
    (scaraIKrunMain 300 0 0 3 4).j1 = ikJ1nMain 300 0 0
    ∧ (scaraIKrunMain 300 0 0 3 4).j2 = ikJ2nMain 300 0 0 := by
  have hL : ikL 300 0 = 300 := by
    rw [ikL_x_axis, abs_of_pos (by norm_num : (0:ℝ) < 300)]
  exact (reach_too_close_iff 300 0 0 3 4).2
    (by rw [hL, sum_L1_L2]; norm_num)
    (by rw [hL]; exact not_lt.mpr (le_trans ikMin_ub (by norm_num)))

/-- C7: `scaraFK` evaluates the joint-limit checks in joint-1-first order
and reports only the first violation: a violated joint-1 limit yields the
code `-1` regardless of joint 2, and a violated joint-2 limit with joint 1
in range yields the distinct code `-2`. -/
theorem fk_joint_limit_order (j1 j2 x0 y0 : ℝ) :
    (|j1| > MAX_ABS_THETA1_DEG → (scaraFKrun j1 j2 x0 y0).code = -1)
    ∧ (|j1| ≤ MAX_ABS_THETA1_DEG → |j2| > MAX_ABS_THETA2_DEG →
        (scaraFKrun j1 j2 x0 y0).code = -2) := by
  constructor
  · intro hgt
    unfold scaraFKrun
    rw [if_pos hgt]
  · intro hle hgt
    unfold scaraFKrun
    rw [if_neg (not_lt.mpr hle), if_pos hgt]

/-- C7 witness: `scaraFK(151, 0)` fails with the joint-1 code `-1` and
`scaraFK(0, 171)` fails with the joint-2 code `-2`. -/
theorem fk_joint_limit_order_witness :
    (scaraFKrun 151 0 0 0).code = -1 ∧ (scaraFKrun 0 171 0 0).code = -2 :=
  ⟨(fk_joint_limit_order 151 0 0 0).1
      (by rw [show |(151:ℝ)| = 151 from abs_of_pos (by norm_num)]
          unfold MAX_ABS_THETA1_DEG; norm_num),
    (fk_joint_limit_order 0 171 0 0).2
      (by rw [abs_zero]; unfold MAX_ABS_THETA1_DEG; norm_num)
      (by rw [show |(171:ℝ)| = 171 from abs_of_pos (by norm_num)]
          unfold MAX_ABS_THETA2_DEG; norm_num)⟩

/-- C8: the known fixture — `scaraFK(j1 = 0, j2 = 90)` succeeds and yields
exactly `x = 350` and `y = 250` (`cos 0 = 1`, `sin 90° = 1`, `cos 90° = 0`). -/
theorem fk_fixture : scaraFKrun 0 90 0 0 = ⟨0, 350, 250⟩ := by
  unfold scaraFKrun
  rw [if_neg (show ¬ |(0:ℝ)| > MAX_ABS_THETA1_DEG by
        rw [abs_zero]; unfold MAX_ABS_THETA1_DEG; norm_num),
      if_neg (show ¬ |(90:ℝ)| > MAX_ABS_THETA2_DEG by
        rw [show |(90:ℝ)| = 90 from abs_of_pos (by norm_num)]
        unfold MAX_ABS_THETA2_DEG; norm_num)]
  rw [zero_mul, show (90:ℝ) * (PI / 180) = Real.pi / 2 by unfold PI; ring, zero_add]
  rw [Real.cos_zero, Real.sin_zero, Real.cos_pi_div_two, Real.sin_pi_div_two]
  unfold L1 L2
  norm_num

/-- C4 counterexample: the two source variants do not return the same
joint angles on every input.  At the target `(300, 0)` with `arm = -1` —
an input `src/main.cpp` actually produces through its fallback call
`scaraIK(X, Y, ..., -ArmType)` — the main variant takes the `+alpha`
branch while the unnamed variant takes the `-alpha` branch, so the values
written through `_j1` differ. -/
theorem ik_variants_differ_cex :
    (scaraIKrunMain 300 0 (-1) 0 0).j1 ≠ (scaraIKrunPart 300 0 (-1) 0 0).j1 := by
  rw [scaraIKrunMain_pass_j1 (-1) 0 0 reach_ok_300_far reach_ok_300_close,
    scaraIKrunPart_pass_j1 (-1) 0 0 reach_ok_300_far reach_ok_300_close,
    ikJ1nMain_300, ikJ1nPart_300]
  intro heq
  have := arccos57_deg_pos
  linarith [heq]

/-- C4 (amended): for the two values an `ArmConfiguration` can take —
`LEFT_ARM_SOLUTION = 0` and `RIGHT_ARM_SOLUTION = 1` — both variants
compute `j1 = beta + sign(config)*alpha` with `sign(LEFT) = -1` and
`sign(RIGHT) = +1`, hence agree on the error code and both joint angles;
the variants differ only on other `int` arm inputs (such as `-1`). -/
theorem ik_variants_agree_amended (x y j10 j20 : ℝ) (arm : ℤ)
    (h : arm = LEFT_ARM_SOLUTION ∨ arm = RIGHT_ARM_SOLUTION) :
    scaraIKrunMain x y arm j10 j20 = scaraIKrunPart x y arm j10 j20 := by
  have hj1 : ikJ1radMain x y arm = ikJ1radPart x y arm := by
    unfold ikJ1radMain ikJ1radPart
    rcases h with h | h
    · rw [if_pos h, if_neg (by rw [h]; decide)]
      ring
    · rw [if_neg (by rw [h]; decide), if_pos h]
      ring
  unfold scaraIKrunMain scaraIKrunPart ikJ1nMain ikJ1nPart ikJ2nMain ikJ2nPart
  unfold ikJ1degMain ikJ1degPart ikJ2degMain ikJ2degPart
  rw [hj1]

/-- C4 witness: at a concrete target with `arm = LEFT_ARM_SOLUTION` the
two variants return identical results. -/
theorem ik_variants_agree_amended_witness :
    scaraIKrunMain 1 2 0 3 4 = scaraIKrunPart 1 2 0 3 4 :=
  ik_variants_agree_amended 1 2 3 4 0 (Or.inl rfl)

/-- C5 counterexample: the post-normalization joint-limit failure of
`scaraIK` is not a tagged error distinguishable from the reach errors.
At `(-500, 0)` with `arm = 1` the reach checks pass and the normalized
joint-1 angle (written to the output) exceeds the 150-degree limit, yet
the returned code is `-1` — the very value returned for ReachTooFar, as
the call at `(601, 0)` shows; no joint index is reported. -/
theorem ik_joint_limit_code_cex :
    (scaraIKrunMain (-500) 0 1 0 0).code = -1
    ∧ |(scaraIKrunMain (-500) 0 1 0 0).j1| > MAX_ABS_THETA1_DEG
    ∧ (scaraIKrunMain 601 0 1 0 0).code = -1 := by
  refine ⟨?_, ?_, ?_⟩
  · rw [scaraIKrunMain_pass_code 1 0 0 reach_ok_neg500_far reach_ok_neg500_close]
    rw [if_pos (Or.inl ikJ1nMain_neg500_breaks)]
  · rw [scaraIKrunMain_pass_j1 1 0 0 reach_ok_neg500_far reach_ok_neg500_close]
    exact ikJ1nMain_neg500_breaks
  · have hgt : ikL 601 0 > L1 + L2 := by
      rw [ikL_x_axis, sum_L1_L2, abs_of_pos (by norm_num : (0:ℝ) < 601)]
      norm_num
    rw [scaraIKrunMain_far 1 0 0 hgt]

/-- C5 (amended): once the reach checks pass, `scaraIK` converts each
joint angle to degrees and applies at most one net `±360` correction
(the value written through each output pointer differs from the raw
degree angle by an integer multiple of 360 produced by the one-shot
wraparound), and it returns the bare code `-1` — the same value as the
ReachTooFar code, identifying no joint — exactly when a corrected angle
still exceeds its joint limit, and `0` otherwise. -/
theorem ik_norm_limit_amended (x y : ℝ) (arm : ℤ) (j10 j20 : ℝ)
    (h1 : ¬ ikL x y > L1 + L2) (h2 : ¬ ikL x y < ikMin) :
    (∃ k1 : ℤ, (scaraIKrunMain x y arm j10 j20).j1 = ikJ1degMain x y arm + k1 * 360)
    ∧ (∃ k2 : ℤ, (scaraIKrunMain x y arm j10 j20).j2 = ikJ2degMain x y arm + k2 * 360)
    ∧ (scaraIKrunMain x y arm j10 j20).code
        = (if |ikJ1nMain x y arm| > MAX_ABS_THETA1_DEG
            ∨ |ikJ2nMain x y arm| > MAX_ABS_THETA2_DEG then -1 else 0) := by
  refine ⟨?_, ?_, scaraIKrunMain_pass_code arm j10 j20 h1 h2⟩
  · obtain ⟨k, hk⟩ := normOnce_eq_add MAX_ABS_THETA1_DEG (ikJ1degMain x y arm)
    refine ⟨k, ?_⟩
    rw [scaraIKrunMain_pass_j1 arm j10 j20 h1 h2]
    exact hk
  · obtain ⟨k, hk⟩ := normOnce_eq_add MAX_ABS_THETA2_DEG (ikJ2degMain x y arm)
    refine ⟨k, ?_⟩
    rw [scaraIKrunMain_pass_j2 arm j10 j20 h1 h2]
    exact hk

/-- C5 witness: at the in-annulus target `(340, 0)` the amended
normalization/limit description holds concretely. -/
theorem ik_norm_limit_amended_witness :
    (∃ k1 : ℤ, (scaraIKrunMain 340 0 1 5 6).j1 = ikJ1degMain 340 0 1 + k1 * 360)
    ∧ (∃ k2 : ℤ, (scaraIKrunMain 340 0 1 5 6).j2 = ikJ2degMain 340 0 1 + k2 * 360)
    ∧ (scaraIKrunMain 340 0 1 5 6).code
        = (if |ikJ1nMain 340 0 1| > MAX_ABS_THETA1_DEG
            ∨ |ikJ2nMain 340 0 1| > MAX_ABS_THETA2_DEG then -1 else 0) :=
  ik_norm_limit_amended 340 0 1 5 6
    (by rw [ikL_x_axis, sum_L1_L2, abs_of_pos (by norm_num : (0:ℝ) < 340)]; norm_num)
    (by rw [ikL_x_axis, abs_of_pos (by norm_num : (0:ℝ) < 340)]
        exact not_lt.mpr (le_trans ikMin_ub (by norm_num)))

/-- C6: the configuration selector invokes `scaraIK` once for LEFT and
once for RIGHT, and when both succeed it returns both candidate joint
poses tagged by configuration; the committed pose is then exactly the
candidate matching the operator's explicit L/R choice — neither is picked
silently. -/
theorem selector_discloses_both (x y : ℝ)
    (hl : (scaraIKrunPart x y LEFT_ARM_SOLUTION 0 0).code = 0)
    (hr : (scaraIKrunPart x y RIGHT_ARM_SOLUTION 0 0).code = 0) :
    selectConfiguration x y
      = SelOutcome.bothValid (scaraIKrunPart x y LEFT_ARM_SOLUTION 0 0).j1
          (scaraIKrunPart x y LEFT_ARM_SOLUTION 0 0).j2
          (scaraIKrunPart x y RIGHT_ARM_SOLUTION 0 0).j1
          (scaraIKrunPart x y RIGHT_ARM_SOLUTION 0 0).j2
    ∧ commitChoice (selectConfiguration x y) ArmChoice.left
        = some (LEFT_ARM_SOLUTION, (scaraIKrunPart x y LEFT_ARM_SOLUTION 0 0).j1,
            (scaraIKrunPart x y LEFT_ARM_SOLUTION 0 0).j2)
    ∧ commitChoice (selectConfiguration x y) ArmChoice.right
        = some (RIGHT_ARM_SOLUTION, (scaraIKrunPart x y RIGHT_ARM_SOLUTION 0 0).j1,
            (scaraIKrunPart x y RIGHT_ARM_SOLUTION 0 0).j2) := by
  have hsel : selectConfiguration x y
      = SelOutcome.bothValid (scaraIKrunPart x y LEFT_ARM_SOLUTION 0 0).j1
          (scaraIKrunPart x y LEFT_ARM_SOLUTION 0 0).j2
          (scaraIKrunPart x y RIGHT_ARM_SOLUTION 0 0).j1
          (scaraIKrunPart x y RIGHT_ARM_SOLUTION 0 0).j2 := by
    unfold selectConfiguration
    rw [if_neg (fun hcon => hcon.1 hl), if_pos ⟨hl, hr⟩]
  refine ⟨hsel, ?_, ?_⟩
  · rw [hsel]
    rfl
  · rw [hsel]
    rfl

/-- C6 witness: at `(600, 0)` both configurations succeed and the
selector discloses both candidates, with each L/R choice committing the
matching one. -/
theorem selector_discloses_both_witness :
    selectConfiguration 600 0
      = SelOutcome.bothValid (scaraIKrunPart 600 0 LEFT_ARM_SOLUTION 0 0).j1
          (scaraIKrunPart 600 0 LEFT_ARM_SOLUTION 0 0).j2
          (scaraIKrunPart 600 0 RIGHT_ARM_SOLUTION 0 0).j1
          (scaraIKrunPart 600 0 RIGHT_ARM_SOLUTION 0 0).j2
    ∧ commitChoice (selectConfiguration 600 0) ArmChoice.left
        = some (LEFT_ARM_SOLUTION, (scaraIKrunPart 600 0 LEFT_ARM_SOLUTION 0 0).j1,
            (scaraIKrunPart 600 0 LEFT_ARM_SOLUTION 0 0).j2)
    ∧ commitChoice (selectConfiguration 600 0) ArmChoice.right
        = some (RIGHT_ARM_SOLUTION, (scaraIKrunPart 600 0 RIGHT_ARM_SOLUTION 0 0).j1,
            (scaraIKrunPart 600 0 RIGHT_ARM_SOLUTION 0 0).j2) :=
  selector_discloses_both 600 0
    (by rw [scaraIKrunPart_at600])
    (by rw [scaraIKrunPart_at600])

lemma digitChar_isDigit {n : ℕ} (h : n < 10) : (Nat.digitChar n).isDigit = true := by
  interval_cases n <;> decide

lemma fmt2_twoDecimal (v : ℝ) : twoDecimal (fmt2 v) := by
  refine ⟨(if round (v * 100) < 0 then "-" else "")
      ++ toString ((round (v * 100)).natAbs / 100),
    Nat.digitChar ((round (v * 100)).natAbs % 100 / 10),
    Nat.digitChar ((round (v * 100)).natAbs % 100 % 10), rfl, ?_, ?_⟩
  · exact digitChar_isDigit
      (Nat.div_lt_of_lt_mul (lt_of_lt_of_le (Nat.mod_lt _ (by norm_num)) (by norm_num)))
  · exact digitChar_isDigit (Nat.mod_lt _ (by norm_num))

/-- C9: the move encoder always produces the single newline-terminated
line `ROTATE_JOINT ANG1 <j1> ANG2 <j2>` with each angle carrying exactly
two fractional digits, and encoding the same pose twice yields
byte-identical output. -/
theorem encode_move_format (j1 j2 : ℝ) :
    (∃ s1 s2 : String,
      encodeMove j1 j2 = "ROTATE_JOINT ANG1 " ++ s1 ++ " ANG2 " ++ s2 ++ "\n"
      ∧ twoDecimal s1 ∧ twoDecimal s2)
    ∧ encodeMove j1 j2 = encodeMove j1 j2 :=
  ⟨⟨fmt2 j1, fmt2 j2, rfl, fmt2_twoDecimal j1, fmt2_twoDecimal j2⟩, rfl⟩

/-- C10: `scaraIK` returns from its two reach failures without touching
the output parameters, `scaraFK` returns from either joint-limit failure
without touching its output parameters, but when `scaraIK` fails the
post-normalization joint-limit check it has already written the
normalized angles through the pointers, so the caller's variables hold a
pose violating the joint limits. -/
theorem out_params_on_failure (x y : ℝ) (arm : ℤ) (j10 j20 j1 j2 x0 y0 : ℝ) :
    (ikL x y > L1 + L2 → scaraIKrunMain x y arm j10 j20 = ⟨-1, j10, j20⟩)
    ∧ (¬ ikL x y > L1 + L2 → ikL x y < ikMin →
        scaraIKrunMain x y arm j10 j20 = ⟨-2, j10, j20⟩)
    ∧ (|j1| > MAX_ABS_THETA1_DEG → scaraFKrun j1 j2 x0 y0 = ⟨-1, x0, y0⟩)
    ∧ (|j1| ≤ MAX_ABS_THETA1_DEG → |j2| > MAX_ABS_THETA2_DEG →
        scaraFKrun j1 j2 x0 y0 = ⟨-2, x0, y0⟩)
    ∧ (¬ ikL x y > L1 + L2 → ¬ ikL x y < ikMin →
        (|ikJ1nMain x y arm| > MAX_ABS_THETA1_DEG
          ∨ |ikJ2nMain x y arm| > MAX_ABS_THETA2_DEG) →
        scaraIKrunMain x y arm j10 j20 = ⟨-1, ikJ1nMain x y arm, ikJ2nMain x y arm⟩
        ∧ ¬(|ikJ1nMain x y arm| ≤ MAX_ABS_THETA1_DEG
            ∧ |ikJ2nMain x y arm| ≤ MAX_ABS_THETA2_DEG)) := by
  refine ⟨fun h => scaraIKrunMain_far arm j10 j20 h,
    fun h1 h2 => scaraIKrunMain_close arm j10 j20 h1 h2,
    ?_, ?_, ?_⟩
  · intro hgt
    unfold scaraFKrun
    rw [if_pos hgt]
  · intro hle hgt
    unfold scaraFKrun
    rw [if_neg (not_lt.mpr hle), if_pos hgt]
  · intro h1 h2 hbreak
    constructor
    · rw [scaraIKrunMain_pass arm j10 j20 h1 h2]
      rcases hbreak with hd | hd
      · rw [if_pos hd]
      · by_cases hd1 : |ikJ1nMain x y arm| > MAX_ABS_THETA1_DEG
        · rw [if_pos hd1]
        · rw [if_neg hd1, if_pos hd]
    · intro hok
      rcases hbreak with hd | hd
      · exact absurd hd (not_lt.mpr hok.1)
      · exact absurd hd (not_lt.mpr hok.2)

/-- C10 witness: concrete calls exercising each branch — reach failures
leave the caller's `5, 7` (resp. `8, 9`) untouched, while the
joint-limit failure at `(-500, 0)` writes the out-of-limit normalized
angles. -/
theorem out_params_on_failure_witness :
    scaraIKrunMain 601 0 0 5 7 = ⟨-1, 5, 7⟩
    ∧ scaraIKrunMain 50 0 0 5 7 = ⟨-2, 5, 7⟩
    ∧ scaraFKrun 151 0 8 9 = ⟨-1, 8, 9⟩
    ∧ scaraFKrun 0 171 8 9 = ⟨-2, 8, 9⟩
    ∧ scaraIKrunMain (-500) 0 1 5 7 = ⟨-1, ikJ1nMain (-500) 0 1, ikJ2nMain (-500) 0 1⟩ := by
  have h601 : ikL 601 0 > L1 + L2 := by
    rw [ikL_x_axis, sum_L1_L2, abs_of_pos (by norm_num : (0:ℝ) < 601)]
    norm_num
  have h50a : ¬ ikL 50 0 > L1 + L2 := by
    rw [ikL_x_axis, sum_L1_L2, abs_of_pos (by norm_num : (0:ℝ) < 50)]
    norm_num
  have h50b : ikL 50 0 < ikMin := by
    rw [ikL_x_axis, abs_of_pos (by norm_num : (0:ℝ) < 50)]
    exact lt_of_lt_of_le (by norm_num) ikMin_lb
  refine ⟨(out_params_on_failure 601 0 0 5 7 0 0 0 0).1 h601,
    (out_params_on_failure 50 0 0 5 7 0 0 0 0).2.1 h50a h50b,
    (out_params_on_failure 0 0 0 0 0 151 0 8 9).2.2.1
      (by rw [abs_of_pos (by norm_num : (0:ℝ) < 151)]
          unfold MAX_ABS_THETA1_DEG; norm_num),
    (out_params_on_failure 0 0 0 0 0 0 171 8 9).2.2.2.1
      (by rw [abs_zero]; unfold MAX_ABS_THETA1_DEG; norm_num)
      (by rw [abs_of_pos (by norm_num : (0:ℝ) < 171)]
          unfold MAX_ABS_THETA2_DEG; norm_num),
    ((out_params_on_failure (-500) 0 1 5 7 0 0 0 0).2.2.2.2
      reach_ok_neg500_far reach_ok_neg500_close
      (Or.inl ikJ1nMain_neg500_breaks)).1⟩

end Scara
